import Mathlib

/-!
Shallow embedding of `src/Lab2/store/main.py` (a FastAPI telemetry store):
the pydantic data models, the WebSocket subscription registry, the
broadcast pipeline, and the CRUD handlers, together with theorems that
settle the specification claims about them.

Conventions of the embedding:
* Python `dict` (insertion-ordered) becomes an association list;
  Python `set` becomes a duplicate-free list (the code only ever builds
  sets through `add`, modelled as append-if-absent).
* WebSocket handles are natural numbers; whether a send to a handle
  succeeds is an explicit oracle `sendOk : Nat → Bool`, and whether the
  database insert/commit succeeds is an explicit flag `persistOk`,
  standing for the exceptions the Python code does not catch.
* Python floats are carried opaquely (no arithmetic is performed on
  them anywhere in the source), modelled as exact decimal values
  `FloatVal`.
* A raised exception is modelled by an explicit failure value; state
  visible at the raise point is returned unchanged, matching the fact
  that the Python operations in question mutate nothing before raising.
-/

namespace Lab2Store

/-- A float value carried opaquely through the pipeline, as the exact
decimal `mantissa × 10 ^ (-exponent)`.  The source never computes with
its float fields, it only stores and forwards them, so any carrier with
decidable equality is faithful. -/
structure FloatVal where
  mantissa : Int
  exponent : Nat
deriving DecidableEq, Repr

/-- A point in time, as produced by parsing an ISO-8601 timestamp.
Models Python `datetime` restricted to the fields the parser fills. -/
structure DateTime where
  year : Nat
  month : Nat
  day : Nat
  hour : Nat
  minute : Nat
  second : Nat
deriving DecidableEq, Repr

/-- Interpret a list of decimal digit characters as a number; `none` if
any character is not a digit or the list is empty. -/
def digitsToNat (cs : List Char) : Option Nat :=
  if cs ≠ [] ∧ cs.all Char.isDigit then
    some (cs.foldl (fun acc c => acc * 10 + (c.toNat - 48)) 0)
  else none

/-- Parse the clock part `HH:MM:SS` plus an optional trailing `Z`.
Helper for `parseTimestamp`. -/
def parseClock (cs : List Char) : Option (Nat × Nat × Nat) :=
  match cs with
  | h1 :: h2 :: ':' :: m1 :: m2 :: ':' :: s1 :: s2 :: tail =>
    match digitsToNat [h1, h2], digitsToNat [m1, m2], digitsToNat [s1, s2] with
    | some hh, some mm, some ss =>
      if (tail = [] ∨ tail = ['Z']) ∧ hh < 24 ∧ mm < 60 ∧ ss < 60 then
        some (hh, mm, ss)
      else none
    | _, _, _ => none
  | _ => none

/-- Modelled from the spec: the source validates the `timestamp` field
with Python `datetime.fromisoformat` / pydantic's `datetime` coercion,
whose code is not in the repository.  Simplified faithful model: accept
`YYYY-MM-DD`, optionally followed by `THH:MM:SS` and an optional `Z`,
with in-range month, day and clock fields; reject everything else. -/
def parseTimestamp (s : String) : Option DateTime :=
  match s.data with
  | y1 :: y2 :: y3 :: y4 :: '-' :: m1 :: m2 :: '-' :: d1 :: d2 :: rest =>
    match digitsToNat [y1, y2, y3, y4], digitsToNat [m1, m2], digitsToNat [d1, d2] with
    | some y, some mo, some d =>
      if 1 ≤ mo ∧ mo ≤ 12 ∧ 1 ≤ d ∧ d ≤ 31 then
        match rest with
        | [] => some ⟨y, mo, d, 0, 0, 0⟩
        | 'T' :: tail =>
          (parseClock tail).map fun c => ⟨y, mo, d, c.1, c.2.1, c.2.2⟩
        | _ => none
      else none
    | _, _, _ => none
  | _ => none

/-- pydantic model `AccelerometerData` (main.py lines 85-88). -/
structure AccelerometerData where
  x : FloatVal
  y : FloatVal
  z : FloatVal
deriving DecidableEq, Repr

/-- pydantic model `GpsData` (main.py lines 91-93). -/
structure GpsData where
  latitude : FloatVal
  longitude : FloatVal
deriving DecidableEq, Repr

/-- pydantic model `AgentData` after validation (main.py lines 96-112):
the timestamp has been coerced to a `datetime`. -/
structure AgentData where
  user_id : String
  accelerometer : AccelerometerData
  gps : GpsData
  timestamp : DateTime
deriving DecidableEq, Repr

/-- The inbound shape of `AgentData` before validation: the timestamp is
still the raw string from the request body. -/
structure RawAgentData where
  user_id : String
  accelerometer : AccelerometerData
  gps : GpsData
  timestamp : String
deriving DecidableEq, Repr

/-- pydantic model `ProcessedAgentData` (main.py lines 115-117). -/
structure ProcessedAgentData where
  road_state : String
  agent_data : AgentData
deriving DecidableEq, Repr

/-- One inbound batch item before validation. -/
structure RawItem where
  road_state : String
  agent_data : RawAgentData
deriving DecidableEq, Repr

/-- Validate one inbound item: the framework parses the body into
`ProcessedAgentData`, coercing the timestamp; an unparseable timestamp
makes the whole request fail validation. -/
def parseItem (it : RawItem) : Option ProcessedAgentData :=
  (parseTimestamp it.agent_data.timestamp).map fun t =>
    ⟨it.road_state, ⟨it.agent_data.user_id, it.agent_data.accelerometer,
      it.agent_data.gps, t⟩⟩

/-- Validate a whole inbound batch; any failing item rejects the batch
(the framework materialises `List[ProcessedAgentData]` before the
handler runs). -/
def parseBatch : List RawItem → Option (List ProcessedAgentData)
  | [] => some []
  | it :: rest =>
    match parseItem it, parseBatch rest with
    | some x, some xs => some (x :: xs)
    | _, _ => none

/-! ## The subscription registry

`subscriptions: Dict[str, Set[WebSocket]] = {}` (main.py line 121),
mutated by `websocket_endpoint` (lines 126-135). -/

/-- The registry: insertion-ordered map from user id to the list of
subscribed websocket handles. -/
abbrev Registry := List (String × List Nat)

/-- `subscriptions[uid]` as a lookup: the handle set, or `none` when the
key is absent (a Python `KeyError` site). -/
def lookupHandles : Registry → String → Option (List Nat)
  | [], _ => none
  | p :: rest, uid => if p.1 = uid then some p.2 else lookupHandles rest uid

/-- Replace the handle set stored under `uid` (in place, preserving key
order), as Python mutation of `subscriptions[uid]` does. -/
def setHandles (subs : Registry) (uid : String) (hs : List Nat) : Registry :=
  subs.map fun p => if p.1 = uid then (p.1, hs) else p

/-- The connect half of `websocket_endpoint` (main.py lines 128-130):
create an empty set when the key is absent, then `set.add` the handle
(a no-op when already present). -/
def register (subs : Registry) (uid : String) (w : Nat) : Registry :=
  match lookupHandles subs uid with
  | none => subs ++ [(uid, [w])]
  | some hs => if w ∈ hs then subs else setHandles subs uid (hs ++ [w])

/-- The disconnect half of `websocket_endpoint` (main.py line 135):
`subscriptions[user_id].remove(websocket)`.  Both the dict indexing and
`set.remove` raise `KeyError` when their key is absent; the `Bool` is
`false` exactly when the Python call raises, and in that case the
registry is returned unmutated. -/
def unregister (subs : Registry) (uid : String) (w : Nat) : Registry × Bool :=
  match lookupHandles subs uid with
  | none => (subs, false)
  | some hs =>
    if w ∈ hs then (setHandles subs uid (hs.erase w), true) else (subs, false)

/-- Registry states reachable by the endpoint: keys are distinct (a dict)
and each handle set is duplicate-free (a set). -/
def RegistryWF (subs : Registry) : Prop :=
  (subs.map Prod.fst).Nodup ∧ ∀ p ∈ subs, p.2.Nodup

instance : DecidablePred RegistryWF := fun subs => by
  unfold RegistryWF; infer_instance

/-- Handle `w` is currently subscribed under `uid`. -/
def memReg (subs : Registry) (uid : String) (w : Nat) : Prop :=
  w ∈ (lookupHandles subs uid).getD []

instance (subs : Registry) (uid : String) (w : Nat) : Decidable (memReg subs uid w) := by
  unfold memReg; infer_instance

/-! ## Broadcast pipeline

`send_data_to_subscribers` / `send_data_websocket` (main.py lines
139-148) and the ingest handler `create_processed_agent_data`
(lines 154-174). -/

/-- A JSON-ish scalar value appearing in the broadcast payload dict. -/
inductive Value where
  | str (s : String)
  | num (q : FloatVal)
  | dt (t : DateTime)
deriving DecidableEq, Repr

/-- One row of the broadcast payload: the dict literal built in
`create_processed_agent_data` (main.py lines 156-168).  Note it is built
from the inbound item before the insert, and has no `"id"` key. -/
def itemValues (item : ProcessedAgentData) : List (String × Value) :=
  [("road_state", .str item.road_state),
   ("user_id", .str item.agent_data.user_id),
   ("x", .num item.agent_data.accelerometer.x),
   ("y", .num item.agent_data.accelerometer.y),
   ("z", .num item.agent_data.accelerometer.z),
   ("latitude", .num item.agent_data.gps.latitude),
   ("longitude", .num item.agent_data.gps.longitude),
   ("timestamp", .dt item.agent_data.timestamp)]

/-- One message actually delivered over a websocket: the receiving
handle and the JSON array of payload rows it was sent. -/
structure Sent where
  handle : Nat
  payload : List (List (String × Value))
deriving DecidableEq, Repr

/-- The inner loop of `send_data_to_subscribers` (main.py lines
140-143): send the payload to each handle in order.  A failing send
raises, so it and every later handle get nothing; the sends already
performed stand.  Returns the performed sends and whether the loop
finished without raising. -/
def sendLoop (handles : List Nat) (payload : List (List (String × Value)))
    (sendOk : Nat → Bool) : List Sent × Bool :=
  match handles with
  | [] => ([], true)
  | w :: rest =>
    if sendOk w then
      let r := sendLoop rest payload sendOk
      (⟨w, payload⟩ :: r.1, r.2)
    else ([], false)

/-- `send_data_to_subscribers(user_id, data)` (main.py lines 139-143):
index the registry at `uid` and send the whole payload to each of its
handles.  The code is only ever called with keys of `subscriptions`, so
the `KeyError` branch (key absent) performs no sends. -/
def send_data_to_subscribers (subs : Registry) (uid : String)
    (payload : List (List (String × Value))) (sendOk : Nat → Bool) :
    List Sent × Bool :=
  match lookupHandles subs uid with
  | none => ([], false)
  | some hs => sendLoop hs payload sendOk

/-- `send_data_websocket(data)` (main.py lines 146-148): for every key
of `subscriptions`, send the full payload to that key's subscribers.
An uncaught send failure aborts the remaining iterations. -/
def send_data_websocket (subs : Registry)
    (payload : List (List (String × Value))) (sendOk : Nat → Bool) :
    List Sent × Bool :=
  match subs with
  | [] => ([], true)
  | (_, hs) :: rest =>
    let r := sendLoop hs payload sendOk
    if r.2 then
      let r' := send_data_websocket rest payload sendOk
      (r.1 ++ r'.1, r'.2)
    else (r.1, false)

/-! ## Persistence store -/

/-- One row of the `processed_agent_data` table (main.py lines 55-67):
`user_id` is a `String` column. -/
structure StoreRow where
  id : Int
  road_state : String
  user_id : String
  x : FloatVal
  y : FloatVal
  z : FloatVal
  latitude : FloatVal
  longitude : FloatVal
  timestamp : DateTime
deriving DecidableEq, Repr

/-- The database table plus its id sequence. -/
structure Store where
  rows : List StoreRow
  nextId : Int
deriving DecidableEq, Repr

/-- Turn a validated item into a table row with a store-assigned id. -/
def toRow (item : ProcessedAgentData) (id : Int) : StoreRow :=
  ⟨id, item.road_state, item.agent_data.user_id,
   item.agent_data.accelerometer.x, item.agent_data.accelerometer.y,
   item.agent_data.accelerometer.z, item.agent_data.gps.latitude,
   item.agent_data.gps.longitude, item.agent_data.timestamp⟩

/-- The committed effect of `insert(processed_agent_data).values(values)`
(main.py line 169): append one row per item, ids assigned in sequence. -/
def insertBatch (s : Store) (items : List ProcessedAgentData) : Store :=
  { rows := s.rows ++ items.enum.map (fun p => toRow p.2 (s.nextId + p.1)),
    nextId := s.nextId + items.length }

/-! ## Ingest handler -/

/-- The observable outcome of one ingest request. -/
inductive Outcome where
  /-- Handler ran to completion. -/
  | ok
  /-- Request body rejected before the handler ran. -/
  | validationError
  /-- `conn.execute` / `conn.commit` raised; nothing committed. -/
  | persistenceError
  /-- A `send_json` raised after the commit; the error escapes the
  handler to the caller. -/
  | deliveryError
deriving DecidableEq, Repr

/-- Everything observable about one ingest request: the resulting store,
the websocket messages actually delivered, and the outcome reported to
the caller. -/
structure IngestResult where
  store : Store
  sent : List Sent
  outcome : Outcome
deriving DecidableEq, Repr

/-- `create_processed_agent_data(data)` (main.py lines 154-174): build
the `values` dicts, insert and commit, then broadcast `values` (the
whole batch, unpartitioned, without ids) to every subscriber of every
key.  `persistOk` is whether the insert+commit succeeds; nothing is
caught, so on persistence failure the broadcast never runs, and on a
send failure the error escapes with the batch still committed. -/
def create_processed_agent_data (store : Store) (subs : Registry)
    (data : List ProcessedAgentData) (persistOk : Bool)
    (sendOk : Nat → Bool) : IngestResult :=
  let values := data.map itemValues
  if persistOk then
    let store' := insertBatch store data
    let r := send_data_websocket subs values sendOk
    ⟨store', r.1, if r.2 then .ok else .deliveryError⟩
  else ⟨store, [], .persistenceError⟩

/-- The full ingest path: framework validation of the request body,
then the handler. -/
def ingest (store : Store) (subs : Registry) (raw : List RawItem)
    (persistOk : Bool) (sendOk : Nat → Bool) : IngestResult :=
  match parseBatch raw with
  | none => ⟨store, [], .validationError⟩
  | some items => create_processed_agent_data store subs items persistOk sendOk

/-! ## CRUD handlers -/

/-- An HTTP-visible failure of a CRUD handler. -/
inductive CrudErr where
  /-- `HTTPException(status_code=404)`. -/
  | notFound
  /-- A pydantic `ValidationError` raised while building the response
  model (surfaces as a server error). -/
  | validationFailed
deriving DecidableEq, Repr

/-- Response model `ProcessedAgentDataInDB` (main.py lines 72-81): note
`user_id : int`, although the table column is a string. -/
structure ProcessedAgentDataInDB where
  id : Int
  road_state : String
  user_id : Int
  x : FloatVal
  y : FloatVal
  z : FloatVal
  latitude : FloatVal
  longitude : FloatVal
  timestamp : DateTime
deriving DecidableEq, Repr

/-- Modelled from the spec: pydantic's lax coercion of a string to an
`int` field (library behaviour, not in the repository): an optional
sign followed by decimal digits parses; anything else fails
validation. -/
def strToInt (s : String) : Option Int :=
  match s.data with
  | '-' :: rest => (digitsToNat rest).map fun n => -(n : Int)
  | '+' :: rest => (digitsToNat rest).map fun n => (n : Int)
  | cs => (digitsToNat cs).map fun n => (n : Int)

/-- Build the response model from a row, as
`ProcessedAgentDataInDB(id=res[0], ...)` (main.py lines 189-199) does:
the string `user_id` column is validated against the `int` field. -/
def rowToInDB (r : StoreRow) : Option ProcessedAgentDataInDB :=
  (strToInt r.user_id).map fun n =>
    ⟨r.id, r.road_state, n, r.x, r.y, r.z, r.latitude, r.longitude, r.timestamp⟩

/-- The effect of `SELECT ... WHERE id = ?` followed by `fetchone()`:
the first row with the given id, if any. -/
def findRow : List StoreRow → Int → Option StoreRow
  | [], _ => none
  | r :: rest, id => if r.id = id then some r else findRow rest id

/-- `read_processed_agent_data` (main.py lines 181-203): select the row
by id; 404 when absent; otherwise build the response model (which can
itself fail on a non-numeric `user_id`). -/
def read_processed_agent_data (store : Store) (id : Int) :
    Except CrudErr ProcessedAgentDataInDB :=
  match findRow store.rows id with
  | none => .error .notFound
  | some r =>
    match rowToInDB r with
    | none => .error .validationFailed
    | some m => .ok m

/-- Build the response model for every row; one bad row fails the whole
list. -/
def rowsToInDB : List StoreRow → Option (List ProcessedAgentDataInDB)
  | [] => some []
  | r :: rest =>
    match rowToInDB r, rowsToInDB rest with
    | some m, some ms => some (m :: ms)
    | _, _ => none

/-- `list_processed_agent_data` (main.py lines 206-227): build the
response model for every row; one bad row fails the whole response. -/
def list_processed_agent_data (store : Store) :
    Except CrudErr (List ProcessedAgentDataInDB) :=
  match rowsToInDB store.rows with
  | none => .error .validationFailed
  | some ms => .ok ms

/-- `update_processed_agent_data` (main.py lines 234-252): run the
`UPDATE ... WHERE id = ?` and commit.  No existence check: with an
absent id the statement matches zero rows and the handler still
completes (it raises no 404). -/
def update_processed_agent_data (store : Store) (id : Int)
    (d : ProcessedAgentData) : Except CrudErr Store :=
  .ok { store with
        rows := store.rows.map fun r =>
          if r.id = id then
            { r with road_state := d.road_state,
                     user_id := d.agent_data.user_id,
                     x := d.agent_data.accelerometer.x,
                     y := d.agent_data.accelerometer.y,
                     z := d.agent_data.accelerometer.z,
                     latitude := d.agent_data.gps.latitude,
                     longitude := d.agent_data.gps.longitude,
                     timestamp := d.agent_data.timestamp }
          else r }

/-- `delete_processed_agent_data` (main.py lines 259-265): run the
`DELETE ... WHERE id = ?` and commit.  No existence check: with an
absent id the statement matches zero rows and the handler still
completes (it raises no 404). -/
def delete_processed_agent_data (store : Store) (id : Int) :
    Except CrudErr Store :=
  .ok { store with rows := store.rows.filter fun r => ¬ r.id = id }

/-! ## Sample data for concrete witnesses and counterexamples -/

/-- A send oracle under which every send succeeds. -/
def allOk : Nat → Bool := fun _ => true

/-- The instant `2024-01-01T00:00:00Z`. -/
def ts0 : DateTime := ⟨2024, 1, 1, 0, 0, 0⟩

/-- The validated item of the spec's single-record scenario. -/
def itemU1 : ProcessedAgentData :=
  ⟨"pothole", ⟨"u1", ⟨⟨1, 1⟩, ⟨2, 1⟩, ⟨98, 1⟩⟩, ⟨⟨1, 0⟩, ⟨2, 0⟩⟩, ts0⟩⟩

/-- A validated item for a second agent, `"u2"`. -/
def itemU2 : ProcessedAgentData :=
  ⟨"bump", ⟨"u2", ⟨⟨0, 0⟩, ⟨0, 0⟩, ⟨1, 0⟩⟩, ⟨⟨3, 0⟩, ⟨4, 0⟩⟩, ts0⟩⟩

/-- The raw (pre-validation) form of `itemU1`. -/
def rawU1 : RawItem :=
  ⟨"pothole", ⟨"u1", ⟨⟨1, 1⟩, ⟨2, 1⟩, ⟨98, 1⟩⟩, ⟨⟨1, 0⟩, ⟨2, 0⟩⟩, "2024-01-01T00:00:00Z"⟩⟩

/-- A raw item whose timestamp is the spec scenario's `"not-a-date"`. -/
def rawBad : RawItem :=
  ⟨"pothole", ⟨"u1", ⟨⟨1, 1⟩, ⟨2, 1⟩, ⟨98, 1⟩⟩, ⟨⟨1, 0⟩, ⟨2, 0⟩⟩, "not-a-date"⟩⟩

/-- An empty table whose id sequence starts at 1. -/
def emptyStore : Store := ⟨[], 1⟩

/-- A stored row whose `user_id` column holds the non-numeric string
`"u1"` (the table column is a string, so this is a legal row). -/
def rowU1 : StoreRow := ⟨1, "pothole", "u1", ⟨1, 1⟩, ⟨2, 1⟩, ⟨98, 1⟩, ⟨1, 0⟩, ⟨2, 0⟩, ts0⟩

/-- A stored row whose `user_id` column holds the numeric string `"7"`. -/
def rowNum : StoreRow := ⟨1, "pothole", "7", ⟨1, 1⟩, ⟨2, 1⟩, ⟨98, 1⟩, ⟨1, 0⟩, ⟨2, 0⟩, ts0⟩

/-- A one-row store containing `rowU1`. -/
def storeU1 : Store := ⟨[rowU1], 2⟩

/-- A one-row store containing `rowNum`. -/
def storeNum : Store := ⟨[rowNum], 2⟩

instance {ε α : Type} [DecidableEq ε] [DecidableEq α] :
    DecidableEq (Except ε α) := fun a b =>
  match a, b with
  | .ok x, .ok y =>
    if h : x = y then .isTrue (by rw [h]) else .isFalse (by simp [h])
  | .error x, .error y =>
    if h : x = y then .isTrue (by rw [h]) else .isFalse (by simp [h])
  | .ok _, .error _ => .isFalse (by simp)
  | .error _, .ok _ => .isFalse (by simp)

/-! ## Registry lemmas -/

theorem lookupHandles_setHandles (subs : Registry) (uid uid' : String)
    (hs : List Nat) :
    lookupHandles (setHandles subs uid hs) uid'
      = if uid' = uid then (lookupHandles subs uid').map fun _ => hs
        else lookupHandles subs uid' := by
  induction subs with
  | nil => simp [setHandles, lookupHandles]
  | cons p rest ih =>
    simp only [setHandles, List.map_cons, lookupHandles]
    by_cases hp : p.1 = uid
    · by_cases hq : uid' = uid
      · simp_all [lookupHandles, setHandles]
      · have hq' : ¬ uid = uid' := fun e => hq e.symm
        simp_all [lookupHandles, setHandles]
    · by_cases hq : uid' = uid <;> simp_all [lookupHandles, setHandles]

theorem keys_setHandles (subs : Registry) (uid : String) (hs : List Nat) :
    (setHandles subs uid hs).map Prod.fst = subs.map Prod.fst := by
  induction subs with
  | nil => rfl
  | cons p rest ih =>
    simp only [setHandles, List.map_cons] at ih ⊢
    by_cases hp : p.1 = uid <;> simp_all

theorem lookupHandles_append_of_none (subs l : Registry) (uid : String)
    (h : lookupHandles subs uid = none) :
    lookupHandles (subs ++ l) uid = lookupHandles l uid := by
  induction subs with
  | nil => rfl
  | cons p rest ih =>
    simp only [lookupHandles, List.cons_append] at h ⊢
    by_cases hp : p.1 = uid <;> simp_all

theorem mem_of_lookupHandles (subs : Registry) (uid : String)
    (hs : List Nat) (h : lookupHandles subs uid = some hs) :
    (uid, hs) ∈ subs := by
  induction subs with
  | nil => simp [lookupHandles] at h
  | cons p rest ih =>
    obtain ⟨a, b⟩ := p
    simp only [lookupHandles] at h
    by_cases hp : a = uid
    · subst hp
      simp at h
      subst h
      exact List.mem_cons_self _ _
    · simp [hp] at h
      exact List.mem_cons_of_mem _ (ih h)

/-! ## Broadcast lemmas -/

theorem sendLoop_allOk (hs : List Nat) (payload : List (List (String × Value))) :
    sendLoop hs payload allOk = (hs.map fun w => ⟨w, payload⟩, true) := by
  induction hs with
  | nil => rfl
  | cons w rest ih => simp [sendLoop, allOk, ih]

theorem send_data_websocket_allOk (subs : Registry)
    (payload : List (List (String × Value))) :
    send_data_websocket subs payload allOk
      = (subs.flatMap fun p => p.2.map fun w => ⟨w, payload⟩, true) := by
  induction subs with
  | nil => rfl
  | cons p rest ih =>
    simp [send_data_websocket, sendLoop_allOk, ih]

theorem sendLoop_ok_flag (hs : List Nat) (payload : List (List (String × Value)))
    (sendOk : Nat → Bool) :
    (sendLoop hs payload sendOk).2 = hs.all sendOk := by
  induction hs with
  | nil => rfl
  | cons w rest ih =>
    simp only [sendLoop, List.all_cons]
    by_cases hw : sendOk w = true <;> simp_all

theorem send_ok_flag (subs : Registry) (payload : List (List (String × Value)))
    (sendOk : Nat → Bool) :
    (send_data_websocket subs payload sendOk).2
      = subs.all fun p => p.2.all sendOk := by
  induction subs with
  | nil => rfl
  | cons p rest ih =>
    simp only [send_data_websocket, List.all_cons]
    have hl := sendLoop_ok_flag p.2 payload sendOk
    cases hb : (sendLoop p.2 payload sendOk).2 with
    | false =>
      rw [hl] at hb
      simp [hb, hl]
    | true =>
      rw [hl] at hb
      simp [hb, hl, ih]

/-! ## Validation and CRUD lemmas -/

theorem parseBatch_none_of_mem (raw : List RawItem) (it : RawItem)
    (hmem : it ∈ raw) (hbad : parseItem it = none) :
    parseBatch raw = none := by
  induction raw with
  | nil => cases hmem
  | cons a rest ih =>
    rcases List.mem_cons.mp hmem with h | h
    · subst h
      simp [parseBatch, hbad]
    · simp only [parseBatch, ih h]
      cases parseItem a <;> rfl

theorem findRow_none_iff (rows : List StoreRow) (id : Int) :
    findRow rows id = none ↔ ∀ r ∈ rows, ¬ r.id = id := by
  induction rows with
  | nil => simp [findRow]
  | cons r rest ih =>
    simp only [findRow, List.mem_cons]
    by_cases hr : r.id = id <;> simp_all

theorem rowsToInDB_none_of_mem (rows : List StoreRow) (row : StoreRow)
    (hmem : row ∈ rows) (hbad : rowToInDB row = none) :
    rowsToInDB rows = none := by
  induction rows with
  | nil => cases hmem
  | cons a rest ih =>
    rcases List.mem_cons.mp hmem with h | h
    · subst h
      simp [rowsToInDB, hbad]
    · simp only [rowsToInDB, ih h]
      cases rowToInDB a <;> rfl

/-! ## Claim theorems: subscription registry (C5, C7, C10) -/

/-- Claim C7: `register(agent_id, handle)` adds the handle to the set for
`agent_id`, creating the set if the key was absent; registering a handle
already present is a no-op; other keys are untouched; and (being a total
function) it has no error conditions. -/
theorem register_spec_total (subs : Registry) (uid uid' : String) (w : Nat) :
    memReg (register subs uid w) uid w
    ∧ (lookupHandles subs uid = none →
        lookupHandles (register subs uid w) uid = some [w])
    ∧ (memReg subs uid w → register subs uid w = subs)
    ∧ (uid' ≠ uid →
        lookupHandles (register subs uid w) uid' = lookupHandles subs uid') := by
  refine ⟨?_, ?_, ?_, ?_⟩
  · unfold memReg
    cases h : lookupHandles subs uid with
    | none =>
      rw [register, h, lookupHandles_append_of_none subs _ uid h]
      simp [lookupHandles]
    | some hs =>
      by_cases hw : w ∈ hs
      · simp [register, h, hw]
      · simp only [register, h]
        rw [if_neg hw, lookupHandles_setHandles]
        simp [h]
  · intro h
    rw [register, h, lookupHandles_append_of_none subs _ uid h]
    simp [lookupHandles]
  · intro h
    unfold memReg at h
    cases hl : lookupHandles subs uid with
    | none => rw [hl] at h; cases h
    | some hs =>
      rw [hl] at h
      simp only [Option.getD_some] at h
      simp [register, hl, h]
  · intro hne
    cases h : lookupHandles subs uid with
    | none =>
      rw [register, h]
      induction subs with
      | nil => simp [lookupHandles, Ne.symm hne]
      | cons p rest ih =>
        simp only [lookupHandles, List.cons_append] at h ⊢
        by_cases hp : p.1 = uid
        · simp [hp] at h
        · by_cases hp' : p.1 = uid' <;> simp_all [lookupHandles]
    | some hs =>
      by_cases hw : w ∈ hs
      · simp [register, h, hw]
      · simp only [register, h]
        rw [if_neg hw, lookupHandles_setHandles]
        simp [hne]

/-- Claim C7 witness: the general theorem applied at the empty registry,
key `"u1"`, handle `0`. -/
theorem register_spec_total_witness :
    memReg (register [] "u1" 0) "u1" 0
    ∧ (lookupHandles ([] : Registry) "u1" = none →
        lookupHandles (register [] "u1" 0) "u1" = some [0])
    ∧ (memReg ([] : Registry) "u1" 0 → register [] "u1" 0 = [])
    ∧ ("u2" ≠ "u1" →
        lookupHandles (register [] "u1" 0) "u2" = lookupHandles [] "u2") :=
  register_spec_total [] "u1" "u2" 0

/-- Claim C5 (counterexample): the claim says `unregister` on an absent
agent_id or handle, including a second call after a successful removal,
never fails.  In the code the disconnect path runs
`subscriptions[user_id].remove(websocket)`, and both the dict index and
`set.remove` raise `KeyError` when their key is absent (the `false` flag
of the embedding).  Unregistering from the empty registry fails, and so
does a second unregister after a successful one. -/
theorem unregister_absent_raises_cex :
    unregister ([] : Registry) "u1" 0 = ([], false)
    ∧ (unregister (unregister (register [] "u1" 0) "u1" 0).1 "u1" 0).2
        = false := by decide

/-- Claim C5 (amended): `unregister(agent_id, handle)` removes the handle
when the agent_id is a key and the handle is in its set; when the
agent_id or the handle is absent — including a second call after a
successful removal — it raises `KeyError` (it is not a no-op), though it
leaves the registry unchanged. -/
theorem unregister_keyerror_semantics (subs : Registry) (uid : String)
    (w : Nat) (hs : List Nat) (hwf : RegistryWF subs) :
    (lookupHandles subs uid = none → unregister subs uid w = (subs, false))
    ∧ (lookupHandles subs uid = some hs → w ∉ hs →
        unregister subs uid w = (subs, false))
    ∧ ((unregister subs uid w).2 = true →
        unregister (unregister subs uid w).1 uid w
          = ((unregister subs uid w).1, false)) := by
  refine ⟨?_, ?_, ?_⟩
  · intro h
    simp [unregister, h]
  · intro h hw
    simp [unregister, h, hw]
  · intro hsucc
    cases h : lookupHandles subs uid with
    | none => simp [unregister, h] at hsucc
    | some hs' =>
      by_cases hw : w ∈ hs'
      · have hres : unregister subs uid w
            = (setHandles subs uid (hs'.erase w), true) := by
          simp [unregister, h, hw]
        rw [hres]
        have hlook : lookupHandles (setHandles subs uid (hs'.erase w)) uid
            = some (hs'.erase w) := by
          rw [lookupHandles_setHandles]
          simp [h]
        have hnodup : hs'.Nodup :=
          hwf.2 (uid, hs') (mem_of_lookupHandles subs uid hs' h)
        have hnot : w ∉ hs'.erase w := hnodup.not_mem_erase
        simp [unregister, hlook, hnot]
      · simp [unregister, h, hw] at hsucc

/-- Claim C5 witness: the amended theorem applied at the registry with
the single subscription `("u1", {5})`. -/
theorem unregister_keyerror_semantics_witness :
    RegistryWF [("u1", [5])]
    ∧ ((lookupHandles [("u1", [5])] "u1" = none →
          unregister [("u1", [5])] "u1" 5 = ([("u1", [5])], false))
      ∧ (lookupHandles [("u1", [5])] "u1" = some [5] → 5 ∉ ([5] : List Nat) →
          unregister [("u1", [5])] "u1" 5 = ([("u1", [5])], false))
      ∧ ((unregister [("u1", [5])] "u1" 5).2 = true →
          unregister (unregister [("u1", [5])] "u1" 5).1 "u1" 5
            = ((unregister [("u1", [5])] "u1" 5).1, false))) :=
  ⟨by decide, unregister_keyerror_semantics [("u1", [5])] "u1" 5 [5] (by decide)⟩

/-- Claim C10: an agent identifier, once registered, stays a key of the
registry: `unregister` never removes a key (only the handle), `register`
makes its identifier a key, and the broadcast loop iterates keys with
empty subscriber sets without effect and without stopping. -/
theorem registry_keys_persist (subs : Registry) (uid : String) (w : Nat)
    (payload : List (List (String × Value))) (sendOk : Nat → Bool) :
    (unregister subs uid w).1.map Prod.fst = subs.map Prod.fst
    ∧ uid ∈ (register subs uid w).map Prod.fst
    ∧ send_data_websocket ((uid, []) :: subs) payload sendOk
        = send_data_websocket subs payload sendOk := by
  refine ⟨?_, ?_, ?_⟩
  · cases h : lookupHandles subs uid with
    | none => simp [unregister, h]
    | some hs =>
      by_cases hw : w ∈ hs <;> simp [unregister, h, hw, keys_setHandles]
  · cases h : lookupHandles subs uid with
    | none => simp [register, h]
    | some hs =>
      have hmem : uid ∈ subs.map Prod.fst :=
        List.mem_map.mpr ⟨(uid, hs), mem_of_lookupHandles subs uid hs h, rfl⟩
      by_cases hw : w ∈ hs <;> simp [register, h, hw, keys_setHandles, hmem]
  · simp [send_data_websocket, sendLoop]

/-! ## Claim theorems: broadcast and ingest (C1, C2, C3, C4, C6) -/

/-- Claim C1 (counterexample): the spec's scenario — a batch with
records for `"u1"` and `"u2"` and only a `"u1"` subscriber (handle 7) —
where the claim says the subscriber receives exactly the `"u1"`
sub-sequence and never the `"u2"` records.  In the code
`send_data_websocket` passes the whole `values` list, unpartitioned, to
every subscriber: handle 7's one message contains the `"u2"` record. -/
theorem ingest_broadcasts_other_agents_cex :
    (create_processed_agent_data emptyStore [("u1", [7])] [itemU1, itemU2]
        true allOk).sent
      = [⟨7, [itemValues itemU1, itemValues itemU2]⟩]
    ∧ ("user_id", Value.str "u2") ∈ itemValues itemU2 := by decide

/-- Claim C1 (amended): after a successful ingest, every subscriber
handle registered before delivery begins receives the **entire** batch
as one message, in the batch's original order, once per agent_id the
handle is registered under — not the per-agent sub-sequence: records of
other agent_ids are included. -/
theorem broadcast_sends_full_batch (store : Store) (subs : Registry)
    (items : List ProcessedAgentData) :
    (create_processed_agent_data store subs items true allOk).sent
      = subs.flatMap fun p => p.2.map fun w => ⟨w, items.map itemValues⟩ := by
  simp [create_processed_agent_data, send_data_websocket_allOk]

/-- Claim C2: broadcast happens only after the batch is committed: with
a failing insert/commit the handler aborts with a persistence error,
the store is unchanged and no send occurs; and whenever any send did
occur, the persist step succeeded and the batch is in the store. -/
theorem commit_gates_broadcast (store : Store) (subs : Registry)
    (raw : List RawItem) (items : List ProcessedAgentData)
    (sendOk : Nat → Bool) (persistOk : Bool)
    (hparse : parseBatch raw = some items) :
    ingest store subs raw false sendOk = ⟨store, [], .persistenceError⟩
    ∧ ((ingest store subs raw persistOk sendOk).sent ≠ [] → persistOk = true)
    ∧ (persistOk = true →
        (ingest store subs raw persistOk sendOk).store
          = insertBatch store items) := by
  refine ⟨?_, ?_, ?_⟩
  · simp [ingest, hparse, create_processed_agent_data]
  · cases persistOk with
    | false =>
      intro hne
      exfalso
      exact hne (by simp [ingest, hparse, create_processed_agent_data])
    | true => intro _; rfl
  · intro hp
    subst hp
    simp [ingest, hparse, create_processed_agent_data]

/-- Claim C2 witness: the theorem applied to the one-item batch
`[rawU1]` (which validates to `[itemU1]`), a `"u1"` subscriber and an
all-succeeding send oracle. -/
theorem commit_gates_broadcast_witness :
    parseBatch [rawU1] = some [itemU1]
    ∧ (ingest emptyStore [("u1", [7])] [rawU1] false allOk
        = ⟨emptyStore, [], .persistenceError⟩
      ∧ ((ingest emptyStore [("u1", [7])] [rawU1] true allOk).sent ≠ [] →
          true = true)
      ∧ (true = true →
          (ingest emptyStore [("u1", [7])] [rawU1] true allOk).store
            = insertBatch emptyStore [itemU1])) :=
  ⟨by decide,
   commit_gates_broadcast emptyStore [("u1", [7])] [rawU1] [itemU1] allOk true
     (by decide)⟩

/-- Claim C3 (counterexample): registry `{"u1": {1}, "u2": {2}}` and a
send oracle under which handle 1 is unreachable.  The claim says the
failure is isolated: handle 2 still gets its delivery and the ingest
caller never sees the error.  In the code nothing catches the exception
from `send_json`: the loop aborts — handle 2 receives nothing (`sent`
is empty) — and the handler ends with the error escaping to the
caller. -/
theorem send_failure_aborts_delivery_cex :
    (create_processed_agent_data emptyStore [("u1", [1]), ("u2", [2])]
        [itemU1] true fun w => w != 1).outcome = Outcome.deliveryError
    ∧ (create_processed_agent_data emptyStore [("u1", [1]), ("u2", [2])]
        [itemU1] true fun w => w != 1).sent = [] := by decide

/-- Claim C3 (amended): a failing send is fatal to the whole broadcast:
the delivery loop finishes successfully iff every registered handle's
send succeeds (a failure makes it abort, skipping the remaining
handles), and on failure the error propagates to the ingest caller as
the handler's outcome — although the persisted batch stays committed. -/
theorem send_failure_propagates (store : Store) (subs : Registry)
    (items : List ProcessedAgentData)
    (payload : List (List (String × Value))) (sendOk : Nat → Bool) :
    (send_data_websocket subs payload sendOk).2
      = (subs.all fun p => p.2.all sendOk)
    ∧ (create_processed_agent_data store subs items true sendOk).outcome
      = (if (send_data_websocket subs (items.map itemValues) sendOk).2
          then .ok else .deliveryError)
    ∧ (create_processed_agent_data store subs items true sendOk).store
      = insertBatch store items := by
  refine ⟨send_ok_flag subs payload sendOk, ?_, ?_⟩ <;>
    simp [create_processed_agent_data]

/-- Claim C4: a batch containing an item whose timestamp does not parse
as an absolute time is rejected as a whole before the handler runs:
the outcome is a validation error, the store is untouched and no
subscriber receives anything. -/
theorem invalid_timestamp_rejects_batch (store : Store) (subs : Registry)
    (raw : List RawItem) (persistOk : Bool) (sendOk : Nat → Bool)
    (it : RawItem) (hmem : it ∈ raw)
    (hbad : parseTimestamp it.agent_data.timestamp = none) :
    ingest store subs raw persistOk sendOk = ⟨store, [], .validationError⟩ := by
  have hpi : parseItem it = none := by simp [parseItem, hbad]
  rw [ingest, parseBatch_none_of_mem raw it hmem hpi]

/-- Claim C4 witness: the theorem applied to the spec scenario — a
batch whose only item has timestamp `"not-a-date"` — with a registered
subscriber present. -/
theorem invalid_timestamp_rejects_batch_witness :
    rawBad ∈ [rawBad]
    ∧ parseTimestamp rawBad.agent_data.timestamp = none
    ∧ ingest emptyStore [("u1", [7])] [rawBad] true allOk
        = ⟨emptyStore, [], .validationError⟩ :=
  ⟨by decide, by decide,
   invalid_timestamp_rejects_batch emptyStore [("u1", [7])] [rawBad] true allOk
     rawBad (by decide) (by decide)⟩

/-- Claim C6 (counterexample): the spec's single-record scenario with a
`"u1"` subscriber (handle 0).  The claim says the pushed record carries
the store-assigned `id`.  The code broadcasts the `values` dicts built
**before** the insert: the one record the subscriber receives has no
`"id"` key at all. -/
theorem pushed_record_lacks_id_cex :
    (create_processed_agent_data emptyStore [("u1", [0])] [itemU1]
        true allOk).sent
      = [⟨0, [itemValues itemU1]⟩]
    ∧ "id" ∉ (itemValues itemU1).map Prod.fst := by decide

/-- Claim C6 (amended): ingesting a single-record batch with one
subscriber registered on the record's agent_id delivers that subscriber
exactly one message containing exactly one record whose fields are the
ingested item's values — but without the store-assigned `id` (the
payload is built before the insert and has no `"id"` key). -/
theorem pushed_record_fields_no_id (store : Store) (w : Nat)
    (item : ProcessedAgentData) :
    (create_processed_agent_data store [(item.agent_data.user_id, [w])]
        [item] true allOk).sent = [⟨w, [itemValues item]⟩]
    ∧ "id" ∉ (itemValues item).map Prod.fst
    ∧ ("user_id", Value.str item.agent_data.user_id) ∈ itemValues item
    ∧ ("road_state", Value.str item.road_state) ∈ itemValues item := by
  refine ⟨?_, ?_, ?_, ?_⟩
  · simp [create_processed_agent_data, send_data_websocket_allOk]
  · simp [itemValues]
  · simp [itemValues]
  · simp [itemValues]

/-- Claim C6 witness: the amended theorem applied at a fresh store,
handle 3 and the `"u2"` sample item. -/
theorem pushed_record_fields_no_id_witness :
    (create_processed_agent_data emptyStore
        [(itemU2.agent_data.user_id, [3])] [itemU2] true allOk).sent
      = [⟨3, [itemValues itemU2]⟩]
    ∧ "id" ∉ (itemValues itemU2).map Prod.fst
    ∧ ("user_id", Value.str itemU2.agent_data.user_id) ∈ itemValues itemU2
    ∧ ("road_state", Value.str itemU2.road_state) ∈ itemValues itemU2 :=
  pushed_record_fields_no_id emptyStore 3 itemU2

/-! ## Claim theorems: CRUD handlers (C8, C9) -/

/-- Claim C8 (counterexample): with an id absent from the store, the
claim says `update` and `delete` surface `NotFoundError`.  The handlers
run the keyed statement without any existence check: both complete
without a not-found failure (the update/delete simply affects zero
rows). -/
theorem update_delete_missing_id_cex :
    update_processed_agent_data emptyStore 1 itemU1 = .ok emptyStore
    ∧ update_processed_agent_data emptyStore 1 itemU1
        ≠ .error CrudErr.notFound
    ∧ delete_processed_agent_data emptyStore 1 = .ok emptyStore
    ∧ delete_processed_agent_data emptyStore 1
        ≠ .error CrudErr.notFound := by decide

/-- Claim C8 (amended): of the keyed single-record operations, only
`read` yields a not-found failure on an absent id; `update` and
`delete` run their keyed statement unconditionally and complete without
a not-found failure, leaving the store unchanged (zero rows
affected). -/
theorem crud_missing_id_behaviour (store : Store) (id : Int)
    (d : ProcessedAgentData) (hmiss : findRow store.rows id = none) :
    read_processed_agent_data store id = .error .notFound
    ∧ update_processed_agent_data store id d = .ok store
    ∧ delete_processed_agent_data store id = .ok store := by
  have hall : ∀ r ∈ store.rows, ¬ r.id = id := (findRow_none_iff _ _).mp hmiss
  refine ⟨?_, ?_, ?_⟩
  · simp [read_processed_agent_data, hmiss]
  · have hmap : (store.rows.map fun r =>
        if r.id = id then
          { r with road_state := d.road_state,
                   user_id := d.agent_data.user_id,
                   x := d.agent_data.accelerometer.x,
                   y := d.agent_data.accelerometer.y,
                   z := d.agent_data.accelerometer.z,
                   latitude := d.agent_data.gps.latitude,
                   longitude := d.agent_data.gps.longitude,
                   timestamp := d.agent_data.timestamp }
        else r) = store.rows := by
      conv_rhs => rw [← List.map_id store.rows]
      exact List.map_congr_left fun r hr => by simp [hall r hr]
    simp [update_processed_agent_data, hmap]
  · have hfil : (store.rows.filter fun r => !decide (r.id = id))
        = store.rows :=
      List.filter_eq_self.mpr fun r hr => by simp [hall r hr]
    simp [delete_processed_agent_data, hfil]

/-- Claim C8 witness: the amended theorem applied at the empty store and
id 1. -/
theorem crud_missing_id_behaviour_witness :
    findRow emptyStore.rows 1 = none
    ∧ (read_processed_agent_data emptyStore 1 = .error .notFound
      ∧ update_processed_agent_data emptyStore 1 itemU1 = .ok emptyStore
      ∧ delete_processed_agent_data emptyStore 1 = .ok emptyStore) :=
  ⟨by decide, crud_missing_id_behaviour emptyStore 1 itemU1 (by decide)⟩

/-- Claim C9 (counterexample): the claim says a stored record whose
agent identifier is a non-numeric string is returned by `read` with
that string unchanged.  The response model `ProcessedAgentDataInDB`
declares `user_id: int`, so building it from the row `("u1", ...)`
fails pydantic validation: the row is present but `read` returns a
validation failure instead of the record. -/
theorem read_nonnumeric_user_id_cex :
    findRow storeU1.rows 1 = some rowU1
    ∧ read_processed_agent_data storeU1 1
        = .error CrudErr.validationFailed := by decide

/-- Claim C9 (amended): records returned by `read` (and `list`) carry
the agent identifier as an **integer**, obtained by pydantic's lax
coercion of the stored string: a numeric-string identifier is returned
coerced to the integer, and a non-numeric one makes the response-model
construction fail, so the record is not returned at all (and one such
row fails the whole `list` response). -/
theorem read_coerces_user_id (store : Store) (id : Int) (r row : StoreRow)
    (n : Int) (hfind : findRow store.rows id = some r) :
    (strToInt r.user_id = none →
        read_processed_agent_data store id = .error .validationFailed)
    ∧ (strToInt r.user_id = some n →
        read_processed_agent_data store id
          = .ok ⟨r.id, r.road_state, n, r.x, r.y, r.z, r.latitude,
              r.longitude, r.timestamp⟩)
    ∧ (row ∈ store.rows → strToInt row.user_id = none →
        list_processed_agent_data store = .error .validationFailed) := by
  refine ⟨?_, ?_, ?_⟩
  · intro hnone
    simp [read_processed_agent_data, hfind, rowToInDB, hnone]
  · intro hsome
    simp [read_processed_agent_data, hfind, rowToInDB, hsome]
  · intro hmem hnone
    have hr : rowToInDB row = none := by simp [rowToInDB, hnone]
    simp [list_processed_agent_data,
      rowsToInDB_none_of_mem store.rows row hmem hr]

/-- Claim C9 witness: the amended theorem applied at the one-row store
whose row has the numeric-string identifier `"7"`, which `read` returns
coerced to the integer 7. -/
theorem read_coerces_user_id_witness :
    findRow storeNum.rows 1 = some rowNum
    ∧ ((strToInt rowNum.user_id = none →
          read_processed_agent_data storeNum 1 = .error .validationFailed)
      ∧ (strToInt rowNum.user_id = some 7 →
          read_processed_agent_data storeNum 1
            = .ok ⟨rowNum.id, rowNum.road_state, 7, rowNum.x, rowNum.y,
                rowNum.z, rowNum.latitude, rowNum.longitude,
                rowNum.timestamp⟩)
      ∧ (rowNum ∈ storeNum.rows → strToInt rowNum.user_id = none →
          list_processed_agent_data storeNum = .error .validationFailed)) :=
  ⟨by decide, read_coerces_user_id storeNum 1 rowNum rowNum 7 (by decide)⟩

end Lab2Store
